import Mathlib

/-
Verification development for the tutor capture/analysis app.

Embedded source files:
  * src/src/lib/local-storage.ts        (getHistory, addProblemToHistory, clearHistoryStorage)
  * src/src/components/capture-form.tsx (the CaptureForm controller with the
    explicit UiMode state machine: manageCameraAsync effect, runAnalysis,
    handleSnapAnalyzeAndRead, handleFileUpload, handleStartOver,
    switchToUploadMode)

Modelling conventions:
  * Browser localStorage is modelled by an explicit `Env` value: whether a
    window object exists, what is stored under the single history key, and
    whether a setItem call would throw (quota exceeded).  JSON round-tripping
    of a problem array is the identity, so a successfully stored payload is
    kept as the list itself; payloads that fail JSON.parse or parse to a
    non-array are the other `StoredRaw` constructors.
  * Asynchronous completions (getUserMedia resolving or rejecting, the
    video element firing loadedmetadata, analyzePsleProblem resolving or
    rejecting) arrive as explicit events.  A stale analysis completion for a
    session that has moved on is ignored (the dispatch is guarded by the
    analyzing mode), matching the serialized execution the spec describes.
  * State updates made inside a handler commit only after the handler
    finishes, so a value a callback reads from its render closure is the
    committed value from before the triggering handler ran.  This matters
    in the catch of runAnalysis: its imagePreview read goes through the
    closure of the render that created the in-flight callback, recorded in
    `closurePreview` at invocation time — the committed preview before the
    trigger, not the preview the trigger itself set.
  * The camera-lifecycle useEffect (manageCameraAsync plus its cleanup) is
    modelled by `settleEffect`, applied after every event: React re-runs the
    effect whenever one of its dependencies changed, the cleanup stops any
    stream tracked by the previous run, and the sync body stops the video
    element stream when the mode should not have a camera.  The net result
    kept by the code is exactly the early-return path that preserves an open
    stream while camera_active with granted permission; every other outcome
    leaves all previously acquired tracks stopped (a fresh acquisition, when
    one is started, becomes visible only through a later acquireSucceed
    event).
  * `streamOpen` is a ghost flag meaning: some previously acquired
    MediaStream still has a track that was not stopped.  `analysisCalls`,
    `createdCount` and `appended` are ghost instrumentation counting
    invocations of analyzePsleProblem, constructions of AnalyzedProblem
    values, and the problems passed to addProblemToHistory.
-/

namespace Tutor

/-- The AnalyzedProblem record from src/src/types (as constructed in
runAnalysis): id, problemImageUri, advice, concepts, timestamp. -/
structure AnalyzedProblem where
  id : String
  problemImageUri : String
  advice : String
  concepts : String
  timestamp : Nat
  deriving DecidableEq, Repr

/-- What may sit under the single history key in localStorage, classified by
what JSON.parse does to it: a string JSON.parse throws on, a string parsing
to a non-array value, or a string parsing to an array of problems. -/
inductive StoredRaw
  | garbage
  | jsonNonArray
  | jsonArray (ps : List AnalyzedProblem)
  deriving DecidableEq, Repr

/-- The browser environment seen by src/src/lib/local-storage.ts: whether a
window object exists, the value stored under the history key (none when the
key is absent), and whether localStorage.setItem would throw. -/
structure Env where
  hasWindow : Bool
  stored : Option StoredRaw
  writeFails : Bool
  deriving DecidableEq, Repr

/-- getHistory from src/src/lib/local-storage.ts lines 5 to 19: empty when
there is no window, when the key is absent, when JSON.parse throws (caught),
or when the parsed value is not an array; otherwise the parsed array. -/
def getHistory (env : Env) : List AnalyzedProblem :=
  if env.hasWindow then
    match env.stored with
    | none => []
    | some StoredRaw.garbage => []
    | some StoredRaw.jsonNonArray => []
    | some (StoredRaw.jsonArray ps) => ps
  else []

/-- addProblemToHistory from src/src/lib/local-storage.ts lines 21 to 33:
returns the empty list with no write when there is no window; otherwise
prepends the problem, tries to store the updated list, and on a setItem
throw returns the old history with the store untouched. -/
def addProblemToHistory (problem : AnalyzedProblem) (env : Env) :
    List AnalyzedProblem × Env :=
  if env.hasWindow then
    let history := getHistory env
    let updatedHistory := problem :: history
    if env.writeFails then
      (history, env)
    else
      (updatedHistory, { env with stored := some (StoredRaw.jsonArray updatedHistory) })
  else ([], env)

/-- clearHistoryStorage from src/src/lib/local-storage.ts lines 35 to 38:
a no-op without a window, otherwise removes the history key. -/
def clearHistoryStorage (env : Env) : Env :=
  if env.hasWindow then { env with stored := none } else env

/-- The UiMode union type of capture-form.tsx line 348. -/
inductive UiMode
  | camera_pending
  | camera_active
  | camera_denied
  | upload_mode
  | analyzing
  | results
  deriving DecidableEq, Repr

/-- The toasts the controller can raise (identified by their titles in the
source). -/
inductive ToastMsg
  | cameraAccessDenied
  | cameraNotReady
  | captureError
  | analysisComplete
  | analysisFailed
  deriving DecidableEq, Repr

/-- The CaptureForm controller state (capture-form.tsx lines 350 to 363),
together with the video element state, the storage environment, and ghost
instrumentation.  `modeBeforeAnalysis` is the local variable captured by the
in-flight runAnalysis invocation; `pendingUri` is its imageDataUri argument;
`closurePreview` is the imagePreview value its render closure captured — the
committed preview at the render that created the triggering handler, which
is none at every real invocation because the snap button and the file input
render only when no preview exists. -/
structure CState where
  uiMode : UiMode
  imagePreview : Option String
  imageFile : Option String
  analysisResult : Option AnalyzedProblem
  analysisError : Option String
  shouldAutoPlaySpeech : Bool
  hasCameraPermissionInternal : Option Bool
  modeBeforeAnalysis : UiMode
  pendingUri : Option String
  closurePreview : Option String
  streamOpen : Bool
  readyState : Nat
  videoWidth : Nat
  videoHeight : Nat
  analysisCalls : Nat
  createdCount : Nat
  appended : List AnalyzedProblem
  toastShown : Option ToastMsg
  env : Env
  deriving DecidableEq, Repr

/-- HTMLMediaElement.HAVE_METADATA. -/
def HAVE_METADATA : Nat := 1

/-- The events that drive the controller: asynchronous completions of
getUserMedia, the video metadata callback, the two capture triggers, the
two outcomes of analyzePsleProblem, the two explicit buttons, and unmount. -/
inductive Event
  | acquireSucceed
  | acquireFail
  | metadataLoaded (w h : Nat)
  | snap (dataUrl : String)
  | selectFile (dataUrl : String)
  | analysisOk (advice concepts pid : String) (ts : Nat)
  | analysisFail (msg : String)
  | startOver
  | switchToUpload
  | teardown
  deriving DecidableEq, Repr

/-- The synchronous prefix of runAnalysis (capture-form.tsx lines 463 to
474): record the mode before analysis, enter analyzing, clear the error,
and stop the camera stream when coming from camera_active (the explicit
track.stop loop at lines 469 to 473).  The await of analyzePsleProblem is
the suspension point; its invocation is counted in `analysisCalls`.
`closurePrev` is the imagePreview the invoked callback closed over: the
committed preview from before the triggering handler ran. -/
def runAnalysisStart (s : CState) (closurePrev : Option String) (uri : String) :
    CState :=
  { s with
    modeBeforeAnalysis := s.uiMode
    uiMode := UiMode.analyzing
    analysisError := none
    pendingUri := some uri
    closurePreview := closurePrev
    streamOpen := if s.uiMode = UiMode.camera_active then false else s.streamOpen
    readyState := if s.uiMode = UiMode.camera_active then 0 else s.readyState
    videoWidth := if s.uiMode = UiMode.camera_active then 0 else s.videoWidth
    videoHeight := if s.uiMode = UiMode.camera_active then 0 else s.videoHeight
    analysisCalls := s.analysisCalls + 1 }

/-- The try-branch continuation of runAnalysis (capture-form.tsx lines 476
to 492): construct exactly one AnalyzedProblem, record it as the result,
append it to history, and enter results. -/
def runAnalysisResolve (s : CState) (advice concepts pid : String) (ts : Nat) :
    CState :=
  let newAnalyzedProblem : AnalyzedProblem :=
    { id := pid
      problemImageUri := s.pendingUri.getD ""
      advice := advice
      concepts := concepts
      timestamp := ts }
  { s with
    analysisResult := some newAnalyzedProblem
    env := (addProblemToHistory newAnalyzedProblem s.env).2
    appended := s.appended ++ [newAnalyzedProblem]
    createdCount := s.createdCount + 1
    uiMode := UiMode.results
    toastShown := some ToastMsg.analysisComplete }

/-- The catch branch of runAnalysis (capture-form.tsx lines 493 to 512):
surface the message of the rejection, then branch on the imagePreview the
callback closed over — upload_mode when it exists, otherwise camera_denied
when the analysis started from camera_active and upload_mode otherwise.
The closure preview is the committed value from before the trigger ran, so
it is none at every real invocation and the first branch is dead in the
program.  Rejections are modelled as Error values carrying a message, so
the surfaced text is the message. -/
def runAnalysisReject (s : CState) (msg : String) : CState :=
  { s with
    analysisError := some msg
    uiMode :=
      if s.closurePreview.isSome then UiMode.upload_mode
      else if s.modeBeforeAnalysis = UiMode.camera_active then UiMode.camera_denied
      else UiMode.upload_mode
    shouldAutoPlaySpeech := false
    toastShown := some ToastMsg.analysisFailed }

/-- handleSnapAnalyzeAndRead (capture-form.tsx lines 515 to 543): refuse
with a Capture Error toast unless camera_active with granted permission;
refuse with a Camera Not Ready toast when the video has not loaded metadata
or reports zero width or height; otherwise capture the frame as a data URI,
set the preview, and start runAnalysis on it.  The video and canvas refs
are modelled as always attached. -/
def handleSnapAnalyzeAndRead (s : CState) (dataUrl : String) : CState :=
  if s.uiMode = UiMode.camera_active ∧ s.hasCameraPermissionInternal = some true then
    if s.readyState < HAVE_METADATA ∨ s.videoWidth = 0 ∨ s.videoHeight = 0 then
      { s with toastShown := some ToastMsg.cameraNotReady }
    else
      -- the runAnalysis callback invoked here closed over the preview
      -- committed before this handler ran
      runAnalysisStart
        { s with
          imagePreview := some dataUrl
          imageFile := some "webcam-photo.png"
          shouldAutoPlaySpeech := true }
        s.imagePreview
        dataUrl
  else { s with toastShown := some ToastMsg.captureError }

/-- The onloadend continuation of handleFileUpload (capture-form.tsx lines
545 to 561) once a file was selected and decoded to a data URI: set the
preview and start runAnalysis.  File objects are represented by their data
URIs. -/
def handleFileUpload (s : CState) (dataUrl : String) : CState :=
  runAnalysisStart
    { s with
      imageFile := some dataUrl
      imagePreview := some dataUrl
      shouldAutoPlaySpeech := false }
    s.imagePreview
    dataUrl

/-- handleStartOver (capture-form.tsx lines 563 to 571): clear result,
preview, file, error, speech flag and cached permission, and re-enter
camera_pending. -/
def handleStartOver (s : CState) : CState :=
  { s with
    analysisResult := none
    imagePreview := none
    imageFile := none
    analysisError := none
    shouldAutoPlaySpeech := false
    hasCameraPermissionInternal := none
    uiMode := UiMode.camera_pending }

/-- switchToUploadMode (capture-form.tsx lines 573 to 578): force
upload_mode; the camera stream is stopped by the effect settlement. -/
def switchToUploadMode (s : CState) : CState :=
  { s with uiMode := UiMode.upload_mode }

/-- The handler part of one event. -/
def handle (s : CState) : Event → CState
  | Event.acquireSucceed =>
      -- getUserMedia resolved (capture-form.tsx lines 404 to 434): attach the
      -- fresh stream (its metadata is not loaded yet) and record permission.
      { s with
        streamOpen := true
        readyState := 0
        videoWidth := 0
        videoHeight := 0
        hasCameraPermissionInternal := some true }
  | Event.acquireFail =>
      -- getUserMedia rejected (capture-form.tsx lines 435 to 446).
      { s with
        hasCameraPermissionInternal := some false
        uiMode := UiMode.camera_denied
        toastShown := some ToastMsg.cameraAccessDenied }
  | Event.metadataLoaded w h =>
      -- onloadedmetadata (capture-form.tsx lines 413 to 422): the stream now
      -- reports its dimensions; switch to camera_active only from
      -- camera_pending or a camera_denied retry.
      { s with
        readyState := HAVE_METADATA
        videoWidth := w
        videoHeight := h
        uiMode :=
          if s.uiMode = UiMode.camera_pending ∨
             (s.uiMode = UiMode.camera_denied ∧
              s.hasCameraPermissionInternal ≠ some false)
          then UiMode.camera_active else s.uiMode }
  | Event.snap dataUrl => handleSnapAnalyzeAndRead s dataUrl
  | Event.selectFile dataUrl => handleFileUpload s dataUrl
  | Event.analysisOk advice concepts pid ts =>
      if s.uiMode = UiMode.analyzing then runAnalysisResolve s advice concepts pid ts
      else s
  | Event.analysisFail msg =>
      if s.uiMode = UiMode.analyzing then runAnalysisReject s msg
      else s
  | Event.startOver => handleStartOver s
  | Event.switchToUpload => switchToUploadMode s
  | Event.teardown =>
      -- Unmount cleanup (capture-form.tsx lines 451 to 459): stop all tracks.
      { s with streamOpen := false, readyState := 0, videoWidth := 0, videoHeight := 0 }

/-- The net result of the camera-lifecycle effect settling after a commit
(manageCameraAsync and its cleanup, capture-form.tsx lines 365 to 460): an
open stream survives only on the keep path of lines 390 to 394, camera
active with granted permission; on every other path the previously acquired
tracks end up stopped, by the stop loop of lines 381 to 388 when the mode
should not have a camera, by the cleanup of lines 451 to 458 before a
re-run, or by the explicit stops in the handlers. -/
def settleEffect (s : CState) : CState :=
  if s.uiMode = UiMode.camera_active ∧
     s.hasCameraPermissionInternal = some true ∧ s.streamOpen = true then s
  else { s with streamOpen := false, readyState := 0, videoWidth := 0, videoHeight := 0 }

/-- One controller transition: the handler followed by the effect settling. -/
def step (s : CState) (e : Event) : CState := settleEffect (handle s e)

/-- The initial state at mount (capture-form.tsx lines 350 to 363):
camera_pending with everything empty. -/
def initState (env : Env) : CState :=
  { uiMode := UiMode.camera_pending
    imagePreview := none
    imageFile := none
    analysisResult := none
    analysisError := none
    shouldAutoPlaySpeech := false
    hasCameraPermissionInternal := none
    modeBeforeAnalysis := UiMode.camera_pending
    pendingUri := none
    closurePreview := none
    streamOpen := false
    readyState := 0
    videoWidth := 0
    videoHeight := 0
    analysisCalls := 0
    createdCount := 0
    appended := []
    toastShown := none
    env := env }

/-- The state after a sequence of controller transitions from mount. -/
def run (env : Env) (es : List Event) : CState :=
  es.foldl step (initState env)

/-- A mode in which the user can initiate a capture or upload again: not
analyzing and not results. -/
def captureReady (m : UiMode) : Prop :=
  m ≠ UiMode.analyzing ∧ m ≠ UiMode.results

/-- Sample data for concrete evaluations. -/
def sampleProblem : AnalyzedProblem :=
  { id := "2024-01-01T00:00:00.000Z"
    problemImageUri := "data:image/png;base64,AAAA"
    advice := "work the problem in steps"
    concepts := "fractions"
    timestamp := 1700000000000 }

/-- An environment with a window, nothing stored yet, and working writes. -/
def goodEnv : Env := { hasWindow := true, stored := none, writeFails := false }

/-- An environment with one stored problem and working writes. -/
def fullEnv : Env :=
  { hasWindow := true
    stored := some (StoredRaw.jsonArray [sampleProblem])
    writeFails := false }

/-- An environment whose setItem throws (quota exceeded). -/
def quotaEnv : Env :=
  { hasWindow := true
    stored := some (StoredRaw.jsonArray [sampleProblem])
    writeFails := true }

/-- A non-browser environment (window is undefined) that nevertheless has
residual stored content, to show the guards ignore it. -/
def serverEnv : Env :=
  { hasWindow := false
    stored := some (StoredRaw.jsonArray [sampleProblem])
    writeFails := false }

/-- A controller state in the middle of an analysis started from upload
mode, with the pending image retained. -/
def analyzingState : CState :=
  { initState goodEnv with
    uiMode := UiMode.analyzing
    modeBeforeAnalysis := UiMode.upload_mode
    imagePreview := some "data:image/png;base64,AAAA"
    imageFile := some "data:image/png;base64,AAAA"
    pendingUri := some "data:image/png;base64,AAAA" }

/-- A camera_active state whose video element has not loaded metadata. -/
def activeNotReadyState : CState :=
  { initState goodEnv with
    uiMode := UiMode.camera_active
    hasCameraPermissionInternal := some true
    streamOpen := true
    readyState := 0 }

/-- A camera_active state with granted permission and a ready video, no
preview yet (the snap button renders exactly then). -/
def activeReadyState : CState :=
  { initState goodEnv with
    uiMode := UiMode.camera_active
    hasCameraPermissionInternal := some true
    streamOpen := true
    readyState := 1
    videoWidth := 640
    videoHeight := 480 }

/-- An upload_mode state with no preview yet (the file input renders
exactly then). -/
def uploadState : CState :=
  { initState goodEnv with uiMode := UiMode.upload_mode }

section EffectLemmas

lemma settleEffect_uiMode (s : CState) : (settleEffect s).uiMode = s.uiMode := by
  unfold settleEffect; split <;> rfl

lemma settleEffect_imagePreview (s : CState) :
    (settleEffect s).imagePreview = s.imagePreview := by
  unfold settleEffect; split <;> rfl

lemma settleEffect_analysisError (s : CState) :
    (settleEffect s).analysisError = s.analysisError := by
  unfold settleEffect; split <;> rfl

lemma settleEffect_toastShown (s : CState) :
    (settleEffect s).toastShown = s.toastShown := by
  unfold settleEffect; split <;> rfl

lemma settleEffect_analysisCalls (s : CState) :
    (settleEffect s).analysisCalls = s.analysisCalls := by
  unfold settleEffect; split <;> rfl

lemma settleEffect_createdCount (s : CState) :
    (settleEffect s).createdCount = s.createdCount := by
  unfold settleEffect; split <;> rfl

lemma settleEffect_appended (s : CState) :
    (settleEffect s).appended = s.appended := by
  unfold settleEffect; split <;> rfl

lemma settleEffect_env (s : CState) : (settleEffect s).env = s.env := by
  unfold settleEffect; split <;> rfl

lemma settleEffect_modeBeforeAnalysis (s : CState) :
    (settleEffect s).modeBeforeAnalysis = s.modeBeforeAnalysis := by
  unfold settleEffect; split <;> rfl

lemma settleEffect_closurePreview (s : CState) :
    (settleEffect s).closurePreview = s.closurePreview := by
  unfold settleEffect; split <;> rfl

/-- Once the mode is not camera_active, the settled effect has stopped every
previously acquired track. -/
lemma settleEffect_stops_of_ne_active (s : CState)
    (h : s.uiMode ≠ UiMode.camera_active) : (settleEffect s).streamOpen = false := by
  unfold settleEffect
  split
  · next hc => exact absurd hc.1 h
  · rfl

/-- The settled effect never reopens a stream that is already stopped. -/
lemma settleEffect_stops_of_closed (s : CState)
    (h : s.streamOpen = false) : (settleEffect s).streamOpen = false := by
  unfold settleEffect
  split
  · exact h
  · rfl

end EffectLemmas

section StorageLemmas

/-- After a successful write, reading the store back gives the prepended
list. -/
lemma getHistory_addProblemToHistory (p : AnalyzedProblem) (env : Env)
    (hw : env.hasWindow = true) (hf : env.writeFails = false) :
    getHistory (addProblemToHistory p env).2 = p :: getHistory env := by
  simp [addProblemToHistory, getHistory, hw, hf]

end StorageLemmas

/-- C1: for every sequence of controller transitions, whenever the
controller leaves camera_active (snapshot, switch to upload, reset,
analysis start, denial, or any other event) every track of any previously
acquired camera stream has been stopped, and the unmount teardown also
leaves every track stopped; no open camera stream survives a transition out
of camera_active. -/
theorem leaving_camera_active_stops_stream (env : Env) (es : List Event)
    (e : Event) :
    ((run env es).uiMode = UiMode.camera_active →
      (step (run env es) e).uiMode ≠ UiMode.camera_active →
      (step (run env es) e).streamOpen = false) ∧
    (step (run env es) Event.teardown).streamOpen = false := by
  constructor
  · intro _ h2
    simp only [step] at h2 ⊢
    rw [settleEffect_uiMode] at h2
    exact settleEffect_stops_of_ne_active _ h2
  · simp only [step]
    apply settleEffect_stops_of_closed
    rfl

/-- Witness for C1: from a run that reaches camera_active, switching to
upload leaves no open stream. -/
theorem leaving_camera_active_stops_stream_witness :
    (step (run goodEnv [Event.acquireSucceed, Event.metadataLoaded 640 480])
      Event.switchToUpload).streamOpen = false :=
  (leaving_camera_active_stops_stream goodEnv
      [Event.acquireSucceed, Event.metadataLoaded 640 480]
      Event.switchToUpload).1 (by decide) (by decide)

/-- C2 as stated is false: a failed analysis with no retained preview does
not return to the pre-analysis state when that state was camera_active; the
catch branch goes to camera_denied there. -/
theorem analysis_failure_restores_prior_mode_counterexample :
    ¬ (∀ (s : CState) (msg : String), s.uiMode = UiMode.analyzing →
        ((s.imagePreview.isSome →
          (step s (Event.analysisFail msg)).uiMode = UiMode.upload_mode) ∧
         (s.imagePreview = none →
          (step s (Event.analysisFail msg)).uiMode = s.modeBeforeAnalysis))) := by
  intro hall
  have h2 :=
    (hall { initState goodEnv with
              uiMode := UiMode.analyzing
              modeBeforeAnalysis := UiMode.camera_active }
        "network timeout" rfl).2 rfl
  exact absurd h2 (by decide)

/-- C2 amended: for every runAnalysis invocation whose analysis call fails,
the controller goes from analyzing to camera_denied when the analysis
started from camera_active (the snapshot path) and to upload_mode otherwise
(the upload path).  The pending image is retained in state for re-display,
but the catch reads the preview through the render closure of the invoked
callback, which is empty at every real invocation — the snap button and the
file input render only when no preview exists (the hprev hypothesis) — so
the fallback mode never depends on the retained image. -/
theorem analysis_failure_fallback_modes (s : CState) (u msg : String)
    (hprev : s.imagePreview = none) :
    (s.uiMode = UiMode.camera_active →
     s.hasCameraPermissionInternal = some true →
     HAVE_METADATA ≤ s.readyState → s.videoWidth ≠ 0 → s.videoHeight ≠ 0 →
       (step s (Event.snap u)).uiMode = UiMode.analyzing ∧
       (step (step s (Event.snap u)) (Event.analysisFail msg)).uiMode =
         UiMode.camera_denied ∧
       (step (step s (Event.snap u)) (Event.analysisFail msg)).imagePreview =
         some u) ∧
    (s.uiMode ≠ UiMode.camera_active →
       (step s (Event.selectFile u)).uiMode = UiMode.analyzing ∧
       (step (step s (Event.selectFile u)) (Event.analysisFail msg)).uiMode =
         UiMode.upload_mode ∧
       (step (step s (Event.selectFile u)) (Event.analysisFail msg)).imagePreview =
         some u) := by
  constructor
  · intro hm hp hr hw2 hh2
    have hcond : ¬ (s.readyState < HAVE_METADATA ∨ s.videoWidth = 0 ∨
        s.videoHeight = 0) := by
      push_neg
      exact ⟨hr, hw2, hh2⟩
    have h1m : (step s (Event.snap u)).uiMode = UiMode.analyzing := by
      simp only [step]
      rw [settleEffect_uiMode]
      simp [handle, handleSnapAnalyzeAndRead, runAnalysisStart, hm, hp, hcond]
    have h1c : (step s (Event.snap u)).closurePreview = none := by
      simp only [step]
      rw [settleEffect_closurePreview]
      simp [handle, handleSnapAnalyzeAndRead, runAnalysisStart, hm, hp, hcond,
        hprev]
    have h1b : (step s (Event.snap u)).modeBeforeAnalysis =
        UiMode.camera_active := by
      simp only [step]
      rw [settleEffect_modeBeforeAnalysis]
      simp [handle, handleSnapAnalyzeAndRead, runAnalysisStart, hm, hp, hcond]
    have h1p : (step s (Event.snap u)).imagePreview = some u := by
      simp only [step]
      rw [settleEffect_imagePreview]
      simp [handle, handleSnapAnalyzeAndRead, runAnalysisStart, hm, hp, hcond]
    refine ⟨h1m, ?_, ?_⟩
    · generalize hgen : step s (Event.snap u) = t at h1m h1c h1b
      simp only [step]
      rw [settleEffect_uiMode]
      simp [handle, runAnalysisReject, h1m, h1c, h1b]
    · generalize hgen : step s (Event.snap u) = t at h1m h1p
      simp only [step]
      rw [settleEffect_imagePreview]
      simp [handle, runAnalysisReject, h1m, h1p]
  · intro hm
    have h1m : (step s (Event.selectFile u)).uiMode = UiMode.analyzing := by
      simp only [step]
      rw [settleEffect_uiMode]
      simp [handle, handleFileUpload, runAnalysisStart]
    have h1c : (step s (Event.selectFile u)).closurePreview = none := by
      simp only [step]
      rw [settleEffect_closurePreview]
      simp [handle, handleFileUpload, runAnalysisStart, hprev]
    have h1b : (step s (Event.selectFile u)).modeBeforeAnalysis = s.uiMode := by
      simp only [step]
      rw [settleEffect_modeBeforeAnalysis]
      simp [handle, handleFileUpload, runAnalysisStart]
    have h1p : (step s (Event.selectFile u)).imagePreview = some u := by
      simp only [step]
      rw [settleEffect_imagePreview]
      simp [handle, handleFileUpload, runAnalysisStart]
    refine ⟨h1m, ?_, ?_⟩
    · generalize hgen : step s (Event.selectFile u) = t at h1m h1c h1b
      simp only [step]
      rw [settleEffect_uiMode]
      simp [handle, runAnalysisReject, h1m, h1c, h1b, hm]
    · generalize hgen : step s (Event.selectFile u) = t at h1m h1p
      simp only [step]
      rw [settleEffect_imagePreview]
      simp [handle, runAnalysisReject, h1m, h1p]

/-- Witness for the amended C2: a concrete snapshot analysis that fails
lands in camera_denied with the captured image still retained, and a
concrete upload analysis that fails lands in upload_mode with the uploaded
image still retained. -/
theorem analysis_failure_fallback_modes_witness :
    ((step (step activeReadyState (Event.snap "data:image/png;base64,AAAA"))
        (Event.analysisFail "network timeout")).uiMode = UiMode.camera_denied ∧
     (step (step activeReadyState (Event.snap "data:image/png;base64,AAAA"))
        (Event.analysisFail "network timeout")).imagePreview =
       some "data:image/png;base64,AAAA") ∧
    ((step (step uploadState (Event.selectFile "data:image/png;base64,AAAA"))
        (Event.analysisFail "network timeout")).uiMode = UiMode.upload_mode ∧
     (step (step uploadState (Event.selectFile "data:image/png;base64,AAAA"))
        (Event.analysisFail "network timeout")).imagePreview =
       some "data:image/png;base64,AAAA") := by
  constructor
  · have h := (analysis_failure_fallback_modes activeReadyState
        "data:image/png;base64,AAAA" "network timeout" rfl).1 rfl rfl
        (by decide) (by decide) (by decide)
    exact ⟨h.2.1, h.2.2⟩
  · have h := (analysis_failure_fallback_modes uploadState
        "data:image/png;base64,AAAA" "network timeout" rfl).2 (by decide)
    exact ⟨h.2.1, h.2.2⟩

/-- C3: one runAnalysis invocation constructs exactly one AnalyzedProblem
and hands exactly that one to addProblemToHistory when the analysis call
succeeds (so with a working store, history gains exactly it at the front),
and constructs zero problems and leaves history untouched when it fails. -/
theorem runAnalysis_one_problem_on_success_zero_on_failure (s : CState)
    (advice concepts pid : String) (ts : Nat) (msg : String)
    (h : s.uiMode = UiMode.analyzing) :
    (step s (Event.analysisOk advice concepts pid ts)).createdCount =
      s.createdCount + 1 ∧
    (step s (Event.analysisOk advice concepts pid ts)).appended =
      s.appended ++
        [{ id := pid, problemImageUri := s.pendingUri.getD "",
           advice := advice, concepts := concepts, timestamp := ts }] ∧
    (s.env.hasWindow = true → s.env.writeFails = false →
      getHistory (step s (Event.analysisOk advice concepts pid ts)).env =
        { id := pid, problemImageUri := s.pendingUri.getD "",
          advice := advice, concepts := concepts,
          timestamp := ts } :: getHistory s.env) ∧
    (step s (Event.analysisFail msg)).createdCount = s.createdCount ∧
    (step s (Event.analysisFail msg)).env = s.env := by
  refine ⟨?_, ?_, ?_, ?_, ?_⟩
  · simp only [step]
    rw [settleEffect_createdCount]
    simp [handle, runAnalysisResolve, h]
  · simp only [step]
    rw [settleEffect_appended]
    simp [handle, runAnalysisResolve, h]
  · intro hw hf
    simp only [step]
    rw [settleEffect_env]
    simp only [handle, h, if_pos, runAnalysisResolve]
    exact getHistory_addProblemToHistory _ _ hw hf
  · simp only [step]
    rw [settleEffect_createdCount]
    simp [handle, runAnalysisReject, h]
  · simp only [step]
    rw [settleEffect_env]
    simp [handle, runAnalysisReject, h]

/-- Witness for C3: a concrete successful analysis appends exactly the new
problem to the front of history. -/
theorem runAnalysis_one_problem_on_success_zero_on_failure_witness :
    getHistory
        (step analyzingState
          (Event.analysisOk "count the parts" "ratios" "p1" 5)).env =
      { id := "p1", problemImageUri := analyzingState.pendingUri.getD "",
        advice := "count the parts", concepts := "ratios",
        timestamp := 5 } :: getHistory analyzingState.env :=
  (runAnalysis_one_problem_on_success_zero_on_failure analyzingState
      "count the parts" "ratios" "p1" 5 "boom" rfl).2.2.1 rfl rfl

/-- C4: after append(p) succeeds, readAll returns p followed by the prior
sequence in order. -/
theorem history_read_after_append (env : Env) (p : AnalyzedProblem)
    (hw : env.hasWindow = true) (hf : env.writeFails = false) :
    getHistory (addProblemToHistory p env).2 = p :: getHistory env :=
  getHistory_addProblemToHistory p env hw hf

/-- Witness for C4 on a store that already holds one problem. -/
theorem history_read_after_append_witness :
    getHistory (addProblemToHistory sampleProblem fullEnv).2 =
      sampleProblem :: getHistory fullEnv :=
  history_read_after_append fullEnv sampleProblem rfl rfl

/-- C5: on a failing analysis call the surfaced error text is exactly the
message of the rejection, the controller returns to a capture-ready mode
(neither analyzing nor results), and the pending image is preserved for
re-display. -/
theorem analysis_failure_error_surfaced_image_preserved (s : CState)
    (msg : String) (h : s.uiMode = UiMode.analyzing) :
    (step s (Event.analysisFail msg)).analysisError = some msg ∧
    captureReady (step s (Event.analysisFail msg)).uiMode ∧
    (step s (Event.analysisFail msg)).imagePreview = s.imagePreview := by
  refine ⟨?_, ?_, ?_⟩
  · simp only [step]
    rw [settleEffect_analysisError]
    simp [handle, runAnalysisReject, h]
  · simp only [step]
    rw [settleEffect_uiMode]
    simp only [handle, h, if_pos, runAnalysisReject]
    unfold captureReady
    split_ifs <;> simp
  · simp only [step]
    rw [settleEffect_imagePreview]
    simp [handle, runAnalysisReject, h]

/-- Witness for C5 at a concrete failing upload analysis. -/
theorem analysis_failure_error_surfaced_image_preserved_witness :
    (step analyzingState (Event.analysisFail "network timeout")).analysisError =
      some "network timeout" ∧
    captureReady (step analyzingState (Event.analysisFail "network timeout")).uiMode ∧
    (step analyzingState (Event.analysisFail "network timeout")).imagePreview =
      analyzingState.imagePreview :=
  analysis_failure_error_surfaced_image_preserved analyzingState
    "network timeout" rfl

/-- C6: a snapshot attempt in camera_active (permission granted) while the
video has not loaded metadata or reports zero width or height leaves the
controller in camera_active, raises the Camera Not Ready toast, does not
enter analyzing, and does not invoke the analysis call. -/
theorem snapshot_before_ready_no_analysis (s : CState) (uri : String)
    (h1 : s.uiMode = UiMode.camera_active)
    (h2 : s.hasCameraPermissionInternal = some true)
    (h3 : s.readyState < HAVE_METADATA ∨ s.videoWidth = 0 ∨ s.videoHeight = 0) :
    (step s (Event.snap uri)).uiMode = UiMode.camera_active ∧
    (step s (Event.snap uri)).toastShown = some ToastMsg.cameraNotReady ∧
    (step s (Event.snap uri)).uiMode ≠ UiMode.analyzing ∧
    (step s (Event.snap uri)).analysisCalls = s.analysisCalls := by
  have hh : handle s (Event.snap uri) = { s with toastShown := some ToastMsg.cameraNotReady } := by
    simp [handle, handleSnapAnalyzeAndRead, h1, h2, h3]
  refine ⟨?_, ?_, ?_, ?_⟩
  · simp only [step]
    rw [settleEffect_uiMode, hh]
    exact h1
  · simp only [step]
    rw [settleEffect_toastShown, hh]
  · simp only [step]
    rw [settleEffect_uiMode, hh]
    simp [h1]
  · simp only [step]
    rw [settleEffect_analysisCalls, hh]

/-- Witness for C6 at a concrete camera_active state with no metadata. -/
theorem snapshot_before_ready_no_analysis_witness :
    (step activeNotReadyState (Event.snap "data:image/png;base64,AAAA")).uiMode =
      UiMode.camera_active ∧
    (step activeNotReadyState (Event.snap "data:image/png;base64,AAAA")).toastShown =
      some ToastMsg.cameraNotReady ∧
    (step activeNotReadyState (Event.snap "data:image/png;base64,AAAA")).uiMode ≠
      UiMode.analyzing ∧
    (step activeNotReadyState (Event.snap "data:image/png;base64,AAAA")).analysisCalls =
      activeNotReadyState.analysisCalls :=
  snapshot_before_ready_no_analysis activeNotReadyState
    "data:image/png;base64,AAAA" rfl rfl (Or.inl (by decide))

/-- C7: when the storage write fails during append, append returns the
prior sequence and leaves the store untouched; being a total function, it
raises nothing to the caller. -/
theorem append_write_failure_returns_prior (env : Env) (p : AnalyzedProblem)
    (hw : env.hasWindow = true) (hf : env.writeFails = true) :
    addProblemToHistory p env = (getHistory env, env) := by
  simp [addProblemToHistory, hw, hf]

/-- Witness for C7 on a quota-exceeded store. -/
theorem append_write_failure_returns_prior_witness :
    addProblemToHistory sampleProblem quotaEnv = (getHistory quotaEnv, quotaEnv) :=
  append_write_failure_returns_prior quotaEnv sampleProblem rfl rfl

/-- C8: a stored payload that is absent, fails to parse, or parses to a
non-array value makes readAll return the empty sequence instead of
failing. -/
theorem corrupt_or_absent_history_reads_empty (env : Env)
    (h : env.stored = none ∨ env.stored = some StoredRaw.garbage ∨
         env.stored = some StoredRaw.jsonNonArray) :
    getHistory env = [] := by
  rcases h with h | h | h <;> simp [getHistory, h]

/-- Witness for C8 on a store holding unparsable text. -/
theorem corrupt_or_absent_history_reads_empty_witness :
    getHistory { hasWindow := true, stored := some StoredRaw.garbage,
                 writeFails := false } = [] :=
  corrupt_or_absent_history_reads_empty
    { hasWindow := true, stored := some StoredRaw.garbage, writeFails := false }
    (Or.inr (Or.inl rfl))

/-- C9: clearAll followed by readAll gives the empty sequence regardless of
prior content, and clearAll is idempotent. -/
theorem clear_then_read_empty_and_idempotent (env : Env) :
    getHistory (clearHistoryStorage env) = [] ∧
    clearHistoryStorage (clearHistoryStorage env) = clearHistoryStorage env := by
  by_cases hw : env.hasWindow <;>
    simp [clearHistoryStorage, getHistory, hw]

/-- C10: in a non-browser environment every storage operation is a guarded
no-op: readAll gives the empty sequence, append returns the empty sequence
without touching the store, and clearAll does nothing. -/
theorem non_browser_storage_noop (env : Env) (p : AnalyzedProblem)
    (h : env.hasWindow = false) :
    getHistory env = [] ∧
    addProblemToHistory p env = ([], env) ∧
    clearHistoryStorage env = env := by
  simp [getHistory, addProblemToHistory, clearHistoryStorage, h]

/-- Witness for C10 on a windowless environment with residual content. -/
theorem non_browser_storage_noop_witness :
    getHistory serverEnv = [] ∧
    addProblemToHistory sampleProblem serverEnv = ([], serverEnv) ∧
    clearHistoryStorage serverEnv = serverEnv :=
  non_browser_storage_noop serverEnv sampleProblem rfl

end Tutor
